import Mathlib

/-! The example API server, `example/apps/api/main.go`.

The program is two functions:

* `handler(w, r)` calls `fmt.Fprintln(w, "Hello from Go API!")`;
* `main()` calls `fmt.Println(banner)`, `http.HandleFunc("/", handler)` and
  `http.ListenAndServe(":3001", nil)`.

Both are embedded below as state-passing functions.  The calls they make into
the Go standard library (`fmt`, `net/http`) are embedded after the library's
documented behaviour; what the operating system decides (whether the port can
be bound, which requests arrive) is a parameter, `Env`.
-/

namespace Api

/-! ## Requests and writers -/

/-- Header map of a request or response: keys with their values. -/
abbrev HeaderMap := List (String × List String)

/-- An inbound request (`http.Request`): the fields a handler can inspect.
`RequestURI` is the request target as the client sent it, `Path` the path of
the parsed URL. -/
structure Request where
  Method : String
  RequestURI : String
  Host : String
  Path : String
  RawQuery : String
  Header : HeaderMap
  Body : String
deriving DecidableEq, Repr

/-- What `Write` returns: the number of bytes written and the error, if any. -/
structure WriteResult where
  n : Nat
  err : Option String
deriving DecidableEq, Repr

/-- The interface `http.ResponseWriter` over a writer state `σ`.  `Header()`
returns a mutable map in Go; here reading it and storing it back are two
functions. -/
structure ResponseWriter (σ : Type) where
  Header : σ → HeaderMap
  SetHeader : σ → HeaderMap → σ
  Write : σ → String → σ × WriteResult
  WriteHeader : σ → Nat → σ

/-- `fmt.Fprintln(w, a...)`: the operands separated by spaces, a newline
appended, handed to the writer in a single `Write`; the result of that
`Write` is returned. -/
def Fprintln {σ : Type} (write : σ → String → σ × WriteResult) (w : σ)
    (a : List String) : σ × WriteResult :=
  write w (" ".intercalate a ++ "\n")

/-! ## Process state -/

/-- Function values of package main that can be registered as handlers. -/
inductive HandlerFunc
  | handler
deriving DecidableEq, Repr

/-- An entry of the multiplexer: a handler and the pattern it was registered
under. -/
structure muxEntry where
  h : HandlerFunc
  pattern : String
deriving DecidableEq, Repr

/-- The request multiplexer `http.ServeMux`: `m` maps patterns to entries,
`es` holds the entries whose pattern ends in a slash, longest pattern first,
`hosts` says whether some pattern names a host. -/
structure ServeMux where
  m : List (String × muxEntry)
  es : List muxEntry
  hosts : Bool
deriving DecidableEq, Repr

/-- State of a response as the server keeps it for one request: the header
map, the status (none until the header is written) and the body written so
far. -/
structure Response where
  Header : HeaderMap
  Code : Option Nat
  Body : String
deriving DecidableEq, Repr

/-- A call of package main into the standard library, with its arguments. -/
inductive Call
  | Println (a : List String)
  | HandleFunc (pattern : String) (h : HandlerFunc)
  | ListenAndServe (addr : String) (handler : Option HandlerFunc)
deriving DecidableEq, Repr

/-- The observable state of the process: what was written to the standard
streams, the default multiplexer, the address being listened on, the
responses sent so far, and the library calls main has made, in order. -/
structure Proc where
  stdout : String
  stderr : String
  DefaultServeMux : ServeMux
  listening : Option String
  responses : List (Request × Response)
  calls : List Call
deriving DecidableEq, Repr

/-- The process when main is entered: nothing written, nothing registered. -/
def Proc.start : Proc :=
  { stdout := "", stderr := "", DefaultServeMux := ⟨[], [], false⟩,
    listening := none, responses := [], calls := [] }

/-- What one invocation of a handler can reach: the process, the request it
was given and its response writer. -/
structure Invocation (σ : Type) where
  proc : Proc
  r : Request
  w : σ

/-! ## The root handler -/

/-- The function `handler` of main.go: one `Fprintln` of the greeting to the
response writer; the values `Fprintln` returns are dropped. -/
def handler {σ : Type} (W : ResponseWriter σ) (st : Invocation σ) : Invocation σ :=
  { st with w := (Fprintln W.Write st.w ["Hello from Go API!"]).1 }

/-! ## The standard library, as main.go uses it -/

/-- `strings.HasPrefix(s, prefix)`. -/
def HasPrefix (s pre : String) : Bool :=
  pre.data.isPrefixOf s.data

/-- `Header.Set(key, value)`: the key's values are replaced by the one value. -/
def HeaderMap.Set (h : HeaderMap) (key value : String) : HeaderMap :=
  (key, [value]) :: h.filter (fun kv => kv.1 != key)

/-- `Header.Del(key)`. -/
def HeaderMap.Del (h : HeaderMap) (key : String) : HeaderMap :=
  h.filter (fun kv => kv.1 != key)

/-- Whether the header map has the key. -/
def HeaderMap.has (h : HeaderMap) (key : String) : Bool :=
  h.any (fun kv => kv.1 == key)

/-- The response a server hands to a handler: no header line, status not yet
written, empty body. -/
def Response.fresh : Response :=
  { Header := [], Code := none, Body := "" }

/-- `WriteHeader(code)` on a server response: the first call fixes the status,
later calls change nothing. -/
def Response.WriteHeader (rs : Response) (code : Nat) : Response :=
  if rs.Code.isSome then rs else { rs with Code := some code }

/-- `Write(data)` on a server response, after the documentation of
`http.ResponseWriter`: when the header has not been written, a Content-Type
line is added if there is none (its value found by `detect` from the data
written, of which the library inspects the first 512 bytes) and
the header is written with status 200; then the data is appended to the body.
The write succeeds with the length of the data in bytes. -/
def Response.Write (detect : String → String) (rs : Response) (data : String) :
    Response × WriteResult :=
  let rs1 :=
    if rs.Code.isSome then rs
    else
      let hd := if rs.Header.has "Content-Type" then rs.Header
                else rs.Header.Set "Content-Type" (detect data)
      Response.WriteHeader { rs with Header := hd } 200
  ({ rs1 with Body := rs1.Body ++ data }, { n := data.utf8ByteSize, err := none })

/-- The response writer of the server.  The header map cannot be changed once
the header is written. -/
def serverWriter (detect : String → String) : ResponseWriter Response where
  Header rs := rs.Header
  SetHeader rs h := if rs.Code.isSome then rs else { rs with Header := h }
  Write := Response.Write detect
  WriteHeader := Response.WriteHeader

/-- A call made on a response writer that can change the response. -/
inductive WriterCall
  | SetHeader (h : HeaderMap)
  | Write (data : String)
  | WriteHeader (code : Nat)
deriving DecidableEq, Repr

/-- Any response writer, wrapped so that the calls made on it are recorded in
order next to its state. -/
def logged {σ : Type} (W : ResponseWriter σ) : ResponseWriter (σ × List WriterCall) where
  Header s := W.Header s.1
  SetHeader s h := (W.SetHeader s.1 h, s.2 ++ [WriterCall.SetHeader h])
  Write s data := (((W.Write s.1 data).1, s.2 ++ [WriterCall.Write data]), (W.Write s.1 data).2)
  WriteHeader s code := (W.WriteHeader s.1 code, s.2 ++ [WriterCall.WriteHeader code])

/-- A writer on a connection that is gone: every `Write` fails with an error
and writes nothing; the state counts the attempts. -/
def brokenWriter : ResponseWriter Nat where
  Header _ := []
  SetHeader s _ := s
  Write s _ := (s + 1, { n := 0, err := some "write: broken pipe" })
  WriteHeader s _ := s

/-- `http.Error(w, error, code)`: plain-text content type, the status, then
the message and a newline. -/
def Error {σ : Type} (W : ResponseWriter σ) (w : σ) (error : String) (code : Nat) : σ :=
  let h := (W.Header w).Del "Content-Length"
  let h := h.Set "Content-Type" "text/plain; charset=utf-8"
  let h := h.Set "X-Content-Type-Options" "nosniff"
  let w := W.SetHeader w h
  let w := W.WriteHeader w code
  (Fprintln W.Write w [error]).1

/-- `http.NotFound(w, r)`: the reply of the multiplexer when no pattern
matches, status 404. -/
def NotFound {σ : Type} (W : ResponseWriter σ) (st : Invocation σ) : Invocation σ :=
  { st with w := Error W st.w "404 page not found" 404 }

/-- Serving a request with a registered function value. -/
def HandlerFunc.ServeHTTP {σ : Type} (f : HandlerFunc) (W : ResponseWriter σ)
    (st : Invocation σ) : Invocation σ :=
  match f with
  | HandlerFunc.handler => Api.handler W st

/-- `appendSorted(es, e)`: the entry is put before the first entry whose
pattern is shorter, so that `es` stays sorted from longest to shortest. -/
def appendSorted : List muxEntry → muxEntry → List muxEntry
  | [], e => [e]
  | x :: xs, e =>
    if x.pattern.utf8ByteSize < e.pattern.utf8ByteSize then e :: x :: xs
    else x :: appendSorted xs e

/-- `mux.Handle(pattern, handler)`: panics on the empty pattern and on a
pattern registered before; otherwise the entry is stored, also in `es` when
the pattern ends in a slash, and `hosts` is set when it does not start with
one. -/
def ServeMux.Handle (mux : ServeMux) (pattern : String) (h : HandlerFunc) :
    Except String ServeMux :=
  if pattern.data = [] then Except.error "http: invalid pattern"
  else if (mux.m.lookup pattern).isSome then
    Except.error ("http: multiple registrations for " ++ pattern)
  else
    let e : muxEntry := { h := h, pattern := pattern }
    Except.ok
      { m := (pattern, e) :: mux.m,
        es := if pattern.data.getLast? = some '/' then appendSorted mux.es e else mux.es,
        hosts := mux.hosts || (pattern.data.head? != some '/') }

/-- The backtracking of `path.Clean` at a ".." element: the write index goes
down from `w` while it is above `dotdot` and the byte at it is not a slash. -/
def backtrack (out : List Char) (dotdot : Nat) : Nat → Nat
  | 0 => 0
  | w + 1 =>
    if dotdot < w + 1 && out.getD (w + 1) ' ' != '/' then backtrack out dotdot w
    else w + 1

/-- The loop of `path.Clean`: `rest` is the input not yet read, `out` the
output written so far, `dotdot` the index in the output where ".." must stop.
A round skips a slash, skips a "." element, undoes the last element at a ".."
element, or copies an element.  Every round reads at least one byte; `fuel`
bounds the number of rounds. -/
def cleanLoop (rooted : Bool) : Nat → List Char → List Char → Nat → List Char
  | 0, _, out, _ => out
  | fuel + 1, rest, out, dotdot =>
    match rest with
    | [] => out
    | c :: tl =>
      if c == '/' then
        cleanLoop rooted fuel tl out dotdot
      else if c == '.' && (tl.isEmpty || tl.head? == some '/') then
        cleanLoop rooted fuel tl out dotdot
      else if c == '.' && tl.head? == some '.'
          && (tl.tail.isEmpty || tl.tail.head? == some '/') then
        if dotdot < out.length then
          cleanLoop rooted fuel tl.tail
            (out.take (backtrack out dotdot (out.length - 1))) dotdot
        else if !rooted then
          let out1 := (if 0 < out.length then out ++ ['/'] else out) ++ ['.', '.']
          cleanLoop rooted fuel tl.tail out1 out1.length
        else
          cleanLoop rooted fuel tl.tail out dotdot
      else
        let out1 :=
          if (rooted && out.length != 1) || (!rooted && out.length != 0) then out ++ ['/']
          else out
        cleanLoop rooted fuel (tl.dropWhile (fun x => x != '/'))
          (out1 ++ c :: tl.takeWhile (fun x => x != '/')) dotdot

/-- `path.Clean(path)`: the shortest path equivalent to the given one; the
fuel is one more than the length of the path, enough for the loop to read it
all. -/
def Clean (path : String) : String :=
  if path.data.isEmpty then "."
  else
    let rooted := path.data.head? == some '/'
    let out :=
      if rooted then cleanLoop true (path.data.length + 1) (path.data.drop 1) ['/'] 1
      else cleanLoop false (path.data.length + 1) path.data [] 0
    if out.isEmpty then "." else String.mk out

/-- `cleanPath(p)` of net/http: the canonical form of a path: it begins with a
slash, has no "." or ".." element and no repeated slash; a trailing slash is
kept. -/
def cleanPath (p : String) : String :=
  if p.data.isEmpty then "/"
  else
    let p := if p.data.head? != some '/' then "/" ++ p else p
    let np := Clean p
    if p.data.getLast? == some '/' && np != "/" then
      if p.data.length == np.data.length + 1 && np.data.isPrefixOf p.data then p
      else np ++ "/"
    else np

/-- Functions and constants of the library that are used by the multiplexer
and not embedded: `stripHostPort` takes the port off a host, `redirectCode` is
the status of the redirects of the multiplexer, `redirectURL` the URL it
redirects to for a path and a raw query, `redirectNote` the short HTML note
`Redirect` writes for a URL and a status. -/
structure Lib where
  stripHostPort : String → String
  redirectCode : Nat
  redirectURL : String → String → String
  redirectNote : String → Nat → String

/-- `http.Redirect(w, r, url, code)`: the Location line, a content type for
GET and HEAD when there was none, the status, and for GET the note. -/
def Redirect {σ : Type} (lib : Lib) (W : ResponseWriter σ) (st : Invocation σ)
    (url : String) (code : Nat) : Invocation σ :=
  let h := W.Header st.w
  let hadCT := h.has "Content-Type"
  let h := h.Set "Location" url
  let h := if !hadCT && (st.r.Method == "GET" || st.r.Method == "HEAD")
           then h.Set "Content-Type" "text/html; charset=utf-8" else h
  let w := W.SetHeader st.w h
  let w := W.WriteHeader w code
  let w := if !hadCT && st.r.Method == "GET"
           then (Fprintln W.Write w [lib.redirectNote url code]).1 else w
  { st with w := w }

/-- What the multiplexer decides for a request: a redirect to a URL, or the
entry that serves it (none: the not-found handler). -/
inductive Route
  | redirect (url : String)
  | serve (e : Option muxEntry)
deriving DecidableEq, Repr

/-- The lookup `mux.match(path)`: an exact match first, else the first entry
of `es` (the longest pattern) that is a prefix of the path.  A pattern ending
in a slash names a rooted subtree; in the words of the package documentation,
the pattern "/" matches all paths not matched by other registered patterns,
not just the URL with Path == "/". -/
def ServeMux.matchPath (mux : ServeMux) (path : String) : Option muxEntry :=
  match mux.m.lookup path with
  | some v => some v
  | none => mux.es.find? (fun e => HasPrefix path e.pattern)

/-- The lookup `mux.handler(host, path)`: a host-specific pattern takes
precedence over a generic one; none stands for the not-found handler. -/
def ServeMux.handler (mux : ServeMux) (host path : String) : Option muxEntry :=
  match (if mux.hosts then mux.matchPath (host ++ path) else none) with
  | some e => some e
  | none => mux.matchPath path

/-- Whether the multiplexer redirects a path to the same path with a slash
appended (`shouldRedirectRLocked`): the path is not registered, with or
without host, but the path with the slash is, and the path does not end in a
slash. -/
def ServeMux.shouldRedirect (mux : ServeMux) (host path : String) : Bool :=
  if (mux.m.lookup path).isSome || (mux.m.lookup (host ++ path)).isSome then false
  else if path.data.isEmpty then false
  else if (mux.m.lookup (path ++ "/")).isSome then path.data.getLast? != some '/'
  else if (mux.m.lookup (host ++ path ++ "/")).isSome then path.data.getLast? != some '/'
  else false

/-- `mux.Handler(r)`: a CONNECT request is looked up with its path as it is;
for any other request the port is taken off the host and the path is cleaned,
and a path that cleaning changes is answered with a redirect to the cleaned
path.  Before that, a path registered only with a trailing slash is
redirected to the path with the slash.  (For CONNECT the library reads the
host of that check from the URL, which is the authority the request names.) -/
def ServeMux.Handler (mux : ServeMux) (lib : Lib) (r : Request) : Route :=
  if r.Method == "CONNECT" then
    if mux.shouldRedirect r.Host r.Path then
      Route.redirect (lib.redirectURL (r.Path ++ "/") r.RawQuery)
    else Route.serve (mux.handler r.Host r.Path)
  else
    let host := lib.stripHostPort r.Host
    let path := cleanPath r.Path
    if mux.shouldRedirect host path then
      Route.redirect (lib.redirectURL (path ++ "/") r.RawQuery)
    else if path != r.Path then
      Route.redirect (lib.redirectURL path r.RawQuery)
    else Route.serve (mux.handler host r.Path)

/-- `mux.ServeHTTP(w, r)`, for a request over HTTP/1.1: the request target
"*" is answered with status 400 and a closed connection; any other request is
served by what `mux.Handler` decides: a redirect, the handler of the entry
found, or the not-found handler. -/
def ServeMux.ServeHTTP {σ : Type} (mux : ServeMux) (lib : Lib) (W : ResponseWriter σ)
    (st : Invocation σ) : Invocation σ :=
  if st.r.RequestURI == "*" then
    let w := W.SetHeader st.w ((W.Header st.w).Set "Connection" "close")
    { st with w := W.WriteHeader w 400 }
  else
    match mux.Handler lib st.r with
    | Route.redirect url => Redirect lib W st url lib.redirectCode
    | Route.serve (some e) => e.h.ServeHTTP W st
    | Route.serve none => NotFound W st

/-- Writing to `os.Stdout`: the data is appended to the standard output. -/
def stdoutWrite (p : Proc) (data : String) : Proc × WriteResult :=
  ({ p with stdout := p.stdout ++ data }, { n := data.utf8ByteSize, err := none })

/-- `fmt.Println(a...)`, which is `Fprintln(os.Stdout, a...)`. -/
def Println (p : Proc) (a : List String) : Proc × WriteResult :=
  Fprintln stdoutWrite { p with calls := p.calls ++ [Call.Println a] } a

/-- `http.HandleFunc(pattern, handler)`: registration on the default
multiplexer; an error stands for the panic of `Handle`. -/
def HandleFunc (p : Proc) (pattern : String) (h : HandlerFunc) : Except String Proc :=
  match p.DefaultServeMux.Handle pattern h with
  | Except.error msg => Except.error msg
  | Except.ok mux =>
    Except.ok { p with DefaultServeMux := mux,
                       calls := p.calls ++ [Call.HandleFunc pattern h] }

/-- What the program does not decide: whether `net.Listen` can bind an address
(the error when it cannot), which requests arrive while the server runs, the
error with which `Serve` gives up (none: it serves forever), the content
type sniffed from a body, and the library functions that are not embedded. -/
structure Env where
  listenErr : String → Option String
  requests : List Request
  serveErr : Option String
  detect : String → String
  lib : Lib

/-- One request handled by the server: a fresh response, the handler given to
the server or, when that is nil, the default multiplexer; the response is
recorded. -/
def serveOne (env : Env) (handler : Option HandlerFunc) (p : Proc) (r : Request) : Proc :=
  let st : Invocation Response := { proc := p, r := r, w := Response.fresh }
  let st1 :=
    match handler with
    | some h => h.ServeHTTP (serverWriter env.detect) st
    | none => p.DefaultServeMux.ServeHTTP env.lib (serverWriter env.detect) st
  { st1.proc with responses := st1.proc.responses ++ [(r, st1.w)] }

/-- `http.ListenAndServe(addr, handler)`: listens on the address (":http" when
empty) and serves.  The result is the error it returns, or none when it never
returns.  When the bind fails the error of `net.Listen` is returned at once
and nothing is served. -/
def ListenAndServe (env : Env) (p : Proc) (addr : String) (handler : Option HandlerFunc) :
    Proc × Option String :=
  let p := { p with calls := p.calls ++ [Call.ListenAndServe addr handler] }
  let addr := if addr.data = [] then ":http" else addr
  match env.listenErr addr with
  | some err => (p, some err)
  | none =>
    let p := env.requests.foldl (serveOne env handler) { p with listening := some addr }
    match env.serveErr with
    | some err => ({ p with listening := none }, some err)
    | none => (p, none)

/-! ## The startup sequence -/

/-- How a call of main ends: it returns, it stays blocked in the server
forever, or it panics. -/
inductive Outcome
  | returned (p : Proc)
  | blocked (p : Proc)
  | panicked (p : Proc) (msg : String)
deriving DecidableEq, Repr

/-- The function `main` of main.go: the banner, the registration of `handler`
under "/", then `ListenAndServe(":3001", nil)`, whose returned error is
dropped. -/
def main (env : Env) (p : Proc) : Outcome :=
  let p := (Println p ["🚀 API Server running on http://localhost:3001"]).1
  match HandleFunc p "/" HandlerFunc.handler with
  | Except.error msg => Outcome.panicked p msg
  | Except.ok p =>
    match ListenAndServe env p ":3001" none with
    | (p, some _) => Outcome.returned p
    | (p, none) => Outcome.blocked p

/-- The process as the operator sees it: its state and its exit code, none
while it is still running. -/
structure Final where
  proc : Proc
  exitCode : Option Nat
deriving DecidableEq, Repr

/-- The Go runtime around main: when main returns the program exits with
code 0; a panic is reported on the standard error (the stack trace that
follows the message is left out) and the exit code is 2; a main that never
returns leaves the process running. -/
def run (env : Env) : Final :=
  match main env Proc.start with
  | Outcome.returned p => { proc := p, exitCode := some 0 }
  | Outcome.blocked p => { proc := p, exitCode := none }
  | Outcome.panicked p msg =>
    { proc := { p with stderr := p.stderr ++ "panic: " ++ msg ++ "\n" }, exitCode := some 2 }

/-- The port of an address or URL: what follows its last colon. -/
def portOf (s : String) : String :=
  String.mk (s.data.reverse.takeWhile (fun c => c != ':')).reverse

/-- The host of an address: what precedes its last colon; empty for an
address that names no interface. -/
def hostOf (s : String) : String :=
  String.mk ((s.data.reverse.dropWhile (fun c => c != ':')).drop 1).reverse

/-- The requests served one after the other, each on its own copy of the
writer state `fresh`, the process state passed from one invocation to the
next; the result is the process state at the end and the responses in the
order of the requests. -/
def serveSeq {σ : Type} (W : ResponseWriter σ) (fresh : σ) : Proc → List Request → Proc × List σ
  | p, [] => (p, [])
  | p, r :: rs =>
    let st := handler W { proc := p, r := r, w := fresh }
    let rest := serveSeq W fresh st.proc rs
    (rest.1, st.w :: rest.2)

/-- Sample values for the library functions that are not embedded: a host
without its port, status 301, the path and the query as the URL. -/
def libSample : Lib :=
  { stripHostPort := fun h => String.mk (h.data.takeWhile (fun c => c != ':')),
    redirectCode := 301,
    redirectURL := fun path query => if query.data.isEmpty then path else path ++ "?" ++ query,
    redirectNote := fun url _ => "<a href=\"" ++ url ++ "\">Moved Permanently</a>.\n" }

/-- A sample request: GET /missing. -/
def reqMissing : Request :=
  { Method := "GET", RequestURI := "/missing", Host := "localhost:3001", Path := "/missing",
    RawQuery := "", Header := [], Body := "" }

/-- An environment in which the port is free and one request, GET /missing,
arrives. -/
def envMissing : Env :=
  { listenErr := fun _ => none,
    requests := [reqMissing],
    serveErr := none,
    detect := fun _ => "text/plain; charset=utf-8",
    lib := libSample }

/-- An environment in which every address is already in use. -/
def envBusy : Env :=
  { listenErr := fun addr => some ("listen tcp " ++ addr ++ ": bind: address already in use"),
    requests := [],
    serveErr := none,
    detect := fun _ => "text/plain; charset=utf-8",
    lib := libSample }

/-- The multiplexer as main leaves it: the one pattern "/" bound to handler. -/
def rootMux : ServeMux :=
  { m := [("/", { h := HandlerFunc.handler, pattern := "/" })],
    es := [{ h := HandlerFunc.handler, pattern := "/" }],
    hosts := false }

/-- The process when main calls ListenAndServe, the call recorded. -/
def procAtListen : Proc :=
  { stdout := "🚀 API Server running on http://localhost:3001\n",
    stderr := "",
    DefaultServeMux := rootMux,
    listening := none,
    responses := [],
    calls := [Call.Println ["🚀 API Server running on http://localhost:3001"],
              Call.HandleFunc "/" HandlerFunc.handler,
              Call.ListenAndServe ":3001" none] }

/-- A sample request: GET / without a body. -/
def reqGet : Request :=
  { Method := "GET", RequestURI := "/", Host := "localhost:3001", Path := "/",
    RawQuery := "", Header := [], Body := "" }

/-- A sample request: POST / with a query, a header line and a body. -/
def reqPost : Request :=
  { Method := "POST", RequestURI := "/?a=1", Host := "localhost:3001", Path := "/",
    RawQuery := "a=1",
    Header := [("Content-Type", ["application/json"])], Body := "\x7b\"k\": 1\x7d" }

/-! ## Lemmas -/

theorem handler_eq {σ : Type} (W : ResponseWriter σ) (st : Invocation σ) :
    handler W st = { st with w := (W.Write st.w "Hello from Go API!\n").1 } := rfl

theorem serveSeq_eq {σ : Type} (W : ResponseWriter σ) (fresh : σ) (p : Proc)
    (reqs : List Request) :
    serveSeq W fresh p reqs
      = (p, List.replicate reqs.length (W.Write fresh "Hello from Go API!\n").1) := by
  induction reqs generalizing p with
  | nil => rfl
  | cons r rs ih =>
    simp only [serveSeq, handler_eq, ih, List.length_cons, List.replicate_succ]

theorem muxServe_proc {σ : Type} (mux : ServeMux) (lib : Lib) (W : ResponseWriter σ)
    (st : Invocation σ) : (mux.ServeHTTP lib W st).proc = st.proc := by
  unfold ServeMux.ServeHTTP
  split
  · rfl
  · split
    · rfl
    · next e _ => cases e with
      | mk h pattern => cases h; rfl
    · rfl

theorem serveOne_frame (env : Env) (p : Proc) (r : Request) :
    serveOne env none p r
      = { p with responses := p.responses ++
            [(r, (p.DefaultServeMux.ServeHTTP env.lib (serverWriter env.detect)
                    { proc := p, r := r, w := Response.fresh }).w)] } := by
  simp only [serveOne, muxServe_proc]

theorem serveAll_frame (env : Env) (reqs : List Request) (p : Proc) :
    (reqs.foldl (serveOne env none) p).stdout = p.stdout
    ∧ (reqs.foldl (serveOne env none) p).stderr = p.stderr
    ∧ (reqs.foldl (serveOne env none) p).DefaultServeMux = p.DefaultServeMux
    ∧ (reqs.foldl (serveOne env none) p).listening = p.listening
    ∧ (reqs.foldl (serveOne env none) p).calls = p.calls := by
  induction reqs generalizing p with
  | nil => simp
  | cons r rs ih =>
    rw [List.foldl_cons]
    obtain ⟨h1, h2, h3, h4, h5⟩ := ih (serveOne env none p r)
    rw [h1, h2, h3, h4, h5, serveOne_frame]
    simp

theorem main_start (env : Env) :
    main env Proc.start =
      match env.listenErr ":3001" with
      | some _ => Outcome.returned procAtListen
      | none =>
        match env.serveErr with
        | some _ =>
          Outcome.returned
            { env.requests.foldl (serveOne env none)
                { procAtListen with listening := some ":3001" } with listening := none }
        | none =>
          Outcome.blocked
            (env.requests.foldl (serveOne env none)
              { procAtListen with listening := some ":3001" }) := by
  have h : HandleFunc (Println Proc.start
      ["🚀 API Server running on http://localhost:3001"]).1 "/" HandlerFunc.handler
      = Except.ok { procAtListen with calls :=
          [Call.Println ["🚀 API Server running on http://localhost:3001"],
           Call.HandleFunc "/" HandlerFunc.handler] } := rfl
  unfold main
  simp only [h]
  unfold ListenAndServe
  have h2 : (if ":3001".data = [] then ":http" else ":3001") = ":3001" := by decide
  simp only [h2]
  cases hl : env.listenErr ":3001" with
  | some e => rfl
  | none =>
    cases hs : env.serveErr with
    | some e => rfl
    | none => rfl

theorem WriteHeader_Body (rs : Response) (code : Nat) :
    (rs.WriteHeader code).Body = rs.Body := by
  unfold Response.WriteHeader
  split <;> rfl

theorem run_eq (env : Env) :
    run env =
      match env.listenErr ":3001" with
      | some _ => { proc := procAtListen, exitCode := some 0 }
      | none =>
        match env.serveErr with
        | some _ =>
          { proc := { env.requests.foldl (serveOne env none)
                        { procAtListen with listening := some ":3001" } with listening := none },
            exitCode := some 0 }
        | none =>
          { proc := env.requests.foldl (serveOne env none)
                      { procAtListen with listening := some ":3001" },
            exitCode := none } := by
  unfold run
  rw [main_start]
  cases hl : env.listenErr ":3001" with
  | some e => rfl
  | none =>
    cases hs : env.serveErr with
    | some e => rfl
    | none => rfl

theorem run_frame (env : Env) :
    (run env).proc.stdout = procAtListen.stdout
    ∧ (run env).proc.stderr = procAtListen.stderr
    ∧ (run env).proc.DefaultServeMux = procAtListen.DefaultServeMux
    ∧ (run env).proc.calls = procAtListen.calls := by
  obtain ⟨h1, h2, h3, _, h5⟩ :=
    serveAll_frame env env.requests { procAtListen with listening := some ":3001" }
  rw [run_eq]
  cases hl : env.listenErr ":3001" with
  | some e => exact ⟨rfl, rfl, rfl, rfl⟩
  | none =>
    cases hs : env.serveErr with
    | some e => exact ⟨h1, h2, h3, h5⟩
    | none => exact ⟨h1, h2, h3, h5⟩

/-- The fuel `Clean` gives the loop is enough: with any fuel above the length
of the input still to read, the loop gives the same output. -/
theorem cleanLoop_fuel (rooted : Bool) (n : Nat) :
    ∀ (m : Nat) (rest out : List Char) (dotdot : Nat), rest.length < n → rest.length < m →
      cleanLoop rooted n rest out dotdot = cleanLoop rooted m rest out dotdot := by
  induction n with
  | zero => intro m rest out dotdot h; omega
  | succ n ih =>
    intro m rest out dotdot hn hm
    cases m with
    | zero => omega
    | succ m =>
      cases rest with
      | nil => simp [cleanLoop]
      | cons c tl =>
        have htl : tl.length < n := by simpa using hn
        have htm : tl.length < m := by simpa using hm
        have h2 : tl.tail.length ≤ tl.length := by simp
        have h3 : (tl.dropWhile (fun x => x != '/')).length ≤ tl.length :=
          (List.dropWhile_sublist _).length_le
        simp only [cleanLoop]
        split
        · exact ih m _ _ _ htl htm
        · split
          · exact ih m _ _ _ htl htm
          · split
            · split
              · exact ih m _ _ _ (by omega) (by omega)
              · split
                · exact ih m _ _ _ (by omega) (by omega)
                · exact ih m _ _ _ (by omega) (by omega)
            · exact ih m _ _ _ (by omega) (by omega)
/-- The model on a path that is not canonical: GET //missing is answered with
a redirect to /missing, and handler is not run. -/
theorem noncanonical_path_is_redirected :
    cleanPath "//missing" = "/missing"
    ∧ rootMux.Handler libSample { reqMissing with RequestURI := "//missing", Path := "//missing" }
        = Route.redirect "/missing"
    ∧ (rootMux.ServeHTTP libSample (serverWriter envMissing.detect)
        { proc := Proc.start,
          r := { reqMissing with RequestURI := "//missing", Path := "//missing" },
          w := Response.fresh }).w.Code = some 301 := by
  decide

theorem append_slash_ne (a b : String) (h : HasPrefix b "/" = true) :
    (a ++ b ++ "/" == "/") = false := by
  have hb : 1 ≤ b.length := by
    unfold HasPrefix at h
    cases hd : b.data with
    | nil => rw [hd] at h; simp [List.isPrefixOf] at h
    | cons c t => simp [String.length, hd]
  have hl : (a ++ b ++ "/").length ≠ ("/" : String).length := by
    rw [String.length_append, String.length_append]
    have : ("/" : String).length = 1 := rfl
    omega
  have hne : a ++ b ++ "/" ≠ "/" := fun e => hl (by rw [e])
  simpa using hne

theorem rootMux_shouldRedirect (host path : String) (h : HasPrefix path "/" = true) :
    rootMux.shouldRedirect host path = false := by
  have h1 : (path ++ "/" == "/") = false := by
    have := append_slash_ne "" path h
    simpa using this
  have h2 : (host ++ path ++ "/" == "/") = false := append_slash_ne host path h
  unfold ServeMux.shouldRedirect
  simp only [rootMux, List.lookup, h1, h2]
  split
  · rfl
  · split
    · rfl
    · rfl

theorem rootMux_handler (host path : String) (h : HasPrefix path "/" = true) :
    rootMux.handler host path = some { h := HandlerFunc.handler, pattern := "/" } := by
  simp only [ServeMux.handler, rootMux, ServeMux.matchPath, List.lookup]
  by_cases hp : (path == "/") = true
  · simp [hp]
  · simp [hp, List.find?, h]

theorem rootMux_Handler (lib : Lib) (r : Request) (hc : cleanPath r.Path = r.Path)
    (h : HasPrefix r.Path "/" = true) :
    rootMux.Handler lib r
      = Route.serve (some { h := HandlerFunc.handler, pattern := "/" }) := by
  unfold ServeMux.Handler
  simp only [hc, rootMux_shouldRedirect _ _ h, rootMux_handler _ _ h]
  simp

/-! ## The root handler: claims C1, C4, C5, C6, C9, C10 -/

/-- C1: for every request and every server response whose body is empty when
handler is called, the body after handler returns is exactly the greeting
"Hello from Go API!" followed by one newline. -/
theorem handler_body_is_greeting (detect : String → String) (p : Proc) (r : Request)
    (w : Response) (h : w.Body = "") :
    (handler (serverWriter detect) { proc := p, r := r, w := w }).w.Body
      = "Hello from Go API!\n" := by
  have e : ("" : String) ++ "Hello from Go API!\n" = "Hello from Go API!\n" := rfl
  rw [handler_eq]
  simp only [serverWriter, Response.Write]
  split
  · rw [h]; exact e
  · rw [WriteHeader_Body]
    show w.Body ++ "Hello from Go API!\n" = "Hello from Go API!\n"
    rw [h]; exact e

/-- Witness of C1: a POST request with a body, on a fresh response. -/
theorem handler_body_is_greeting_witness :
    Response.fresh.Body = ""
    ∧ (handler (serverWriter envBusy.detect)
        { proc := Proc.start, r := reqPost, w := Response.fresh }).w.Body
        = "Hello from Go API!\n" :=
  ⟨rfl, handler_body_is_greeting envBusy.detect Proc.start reqPost Response.fresh rfl⟩

/-- C4: for every request, handler makes no WriteHeader call on its writer,
whatever the writer is, and on a server response whose header is not yet
written the status after handler is the default 200. -/
theorem handler_status_is_default (σ : Type) (W : ResponseWriter σ) (w : σ)
    (detect : String → String) (p : Proc) (r : Request) (hd : HeaderMap) :
    (∀ code, WriterCall.WriteHeader code ∉
        (handler (logged W) { proc := p, r := r, w := (w, []) }).w.2)
    ∧ (handler (serverWriter detect)
        { proc := p, r := r, w := { Header := hd, Code := none, Body := "" } }).w.Code
        = some 200 := by
  constructor
  · intro code
    rw [handler_eq]
    simp [logged]
  · rw [handler_eq]
    simp [serverWriter, Response.Write, Response.WriteHeader]

/-- C5: handler ignores its request: run on the same process state and the
same writer state with any two requests, it leaves the same writer state and
the same process state; on a server response that is the same body, status
and header. -/
theorem handler_ignores_request (σ : Type) (W : ResponseWriter σ) (w : σ)
    (detect : String → String) (rs : Response) (p : Proc) (r1 r2 : Request) :
    (handler W { proc := p, r := r1, w := w }).w = (handler W { proc := p, r := r2, w := w }).w
    ∧ (handler W { proc := p, r := r1, w := w }).proc
        = (handler W { proc := p, r := r2, w := w }).proc
    ∧ (handler (serverWriter detect) { proc := p, r := r1, w := rs }).w.Body
        = (handler (serverWriter detect) { proc := p, r := r2, w := rs }).w.Body
    ∧ (handler (serverWriter detect) { proc := p, r := r1, w := rs }).w.Code
        = (handler (serverWriter detect) { proc := p, r := r2, w := rs }).w.Code
    ∧ (handler (serverWriter detect) { proc := p, r := r1, w := rs }).w.Header
        = (handler (serverWriter detect) { proc := p, r := r2, w := rs }).w.Header :=
  ⟨rfl, rfl, rfl, rfl, rfl⟩

/-- C6: for every N ≥ 1 and every N requests, served in any order, each on
its own fresh writer state: N responses are produced, the k-th response is the
first response of the requests served in their given order, for every k < N,
and the process state shared by the invocations is left as it was. -/
theorem repeated_calls_identical (σ : Type) (W : ResponseWriter σ) (fresh : σ) (p : Proc)
    (N : Nat) (reqs sched : List Request) (hN : 1 ≤ N) (hlen : reqs.length = N)
    (hperm : sched.Perm reqs) :
    (serveSeq W fresh p sched).1 = p
    ∧ (serveSeq W fresh p sched).2.length = N
    ∧ ∀ k, k < N →
        (serveSeq W fresh p sched).2[k]? = (serveSeq W fresh p reqs).2[0]?
        ∧ (serveSeq W fresh p sched).2[k]?
            = some (handler W { proc := p, r := reqGet, w := fresh }).w := by
  have hs : sched.length = N := by rw [hperm.length_eq, hlen]
  simp only [serveSeq_eq, hs, hlen, List.length_replicate, handler_eq, true_and]
  intro k hk
  have h0 : 0 < N := hN
  simp [List.getElem?_replicate, hk, h0]

/-- Witness of C6: two requests, served in the opposite order. -/
theorem repeated_calls_identical_witness :
    1 ≤ 2 ∧ [reqGet, reqPost].length = 2 ∧ [reqPost, reqGet].Perm [reqGet, reqPost]
    ∧ (serveSeq (serverWriter envBusy.detect) Response.fresh Proc.start [reqPost, reqGet]).2[1]?
        = (serveSeq (serverWriter envBusy.detect) Response.fresh Proc.start [reqGet, reqPost]).2[0]? :=
  ⟨by decide, rfl, List.Perm.swap reqGet reqPost [],
   ((repeated_calls_identical Response (serverWriter envBusy.detect) Response.fresh Proc.start
      2 [reqGet, reqPost] [reqPost, reqGet] (by decide) rfl
      (List.Perm.swap reqGet reqPost [])).2.2 1 (by decide)).1⟩

/-- C9: handler drops the result of its write: whatever result the writer's
Write returns (any count, any error), handler ends in the same state as with
the writer's own result; and on a writer whose every write fails handler
returns after one attempt, with the process state (standard error included)
as it was. -/
theorem handler_drops_write_result (σ : Type) (W : ResponseWriter σ)
    (res : σ → String → WriteResult) (st : Invocation σ) (p : Proc) (r : Request) (n : Nat) :
    handler { W with Write := fun s d => ((W.Write s d).1, res s d) } st = handler W st
    ∧ ((brokenWriter.Write n "Hello from Go API!\n").2.err = some "write: broken pipe")
    ∧ handler (logged brokenWriter) { proc := p, r := r, w := (n, []) }
        = { proc := p, r := r, w := (n + 1, [WriterCall.Write "Hello from Go API!\n"]) } :=
  ⟨rfl, rfl, rfl⟩

/-- C10: for every request and every writer, one invocation of handler makes
exactly one call on the writer, a Write of the greeting line, and changes
nothing else: the request and the process state (standard output, standard
error, multiplexer) are as before, and no header or status call is made. -/
theorem handler_single_write (σ : Type) (W : ResponseWriter σ) (w : σ) (p : Proc)
    (r : Request) :
    handler (logged W) { proc := p, r := r, w := (w, []) }
      = { proc := p, r := r,
          w := ((W.Write w "Hello from Go API!\n").1,
                [WriterCall.Write "Hello from Go API!\n"]) } :=
  rfl

/-! ## Routing: claim C2 -/

/-- C2, as stated, fails: GET /missing, whose path is not "/", is answered by
handler with status 200 and the greeting, not with 404. -/
theorem missing_path_gets_greeting :
    envMissing.requests.map (fun r => r.Path) = ["/missing"]
    ∧ "/missing" ≠ "/"
    ∧ (run envMissing).proc.responses.map (fun x => (x.1.Path, x.2.Code, x.2.Body))
        = [("/missing", some 200, "Hello from Go API!\n")] := by
  decide

/-- C2, amended: for every request whose target is not "*" and whose path is
in canonical form (it begins with a slash and cleaning leaves it as it is),
whatever else the request holds and also when the path is not "/", the
multiplexer set up by main routes the request to handler under the pattern
"/", serving it is running handler, and the response on a fresh server
response has status 200 and the greeting as its body. -/
theorem root_pattern_serves_every_path (env : Env) (p : Proc) (r : Request)
    (hu : r.RequestURI ≠ "*") (hc : cleanPath r.Path = r.Path)
    (h : HasPrefix r.Path "/" = true) :
    (run env).proc.DefaultServeMux.Handler env.lib r
      = Route.serve (some { h := HandlerFunc.handler, pattern := "/" })
    ∧ (run env).proc.DefaultServeMux.ServeHTTP env.lib (serverWriter env.detect)
        { proc := p, r := r, w := Response.fresh }
      = handler (serverWriter env.detect) { proc := p, r := r, w := Response.fresh }
    ∧ ((run env).proc.DefaultServeMux.ServeHTTP env.lib (serverWriter env.detect)
        { proc := p, r := r, w := Response.fresh }).w.Code = some 200
    ∧ ((run env).proc.DefaultServeMux.ServeHTTP env.lib (serverWriter env.detect)
        { proc := p, r := r, w := Response.fresh }).w.Body = "Hello from Go API!\n" := by
  have hm : (run env).proc.DefaultServeMux = rootMux := (run_frame env).2.2.1
  have hH := rootMux_Handler env.lib r hc h
  have hS : rootMux.ServeHTTP env.lib (serverWriter env.detect)
        { proc := p, r := r, w := Response.fresh }
      = handler (serverWriter env.detect) { proc := p, r := r, w := Response.fresh } := by
    have hne : (r.RequestURI == "*") = false := by simpa using hu
    simp only [ServeMux.ServeHTTP, hne, hH, HandlerFunc.ServeHTTP]
    rfl
  rw [hm]
  exact ⟨hH, hS, by rw [hS]; rfl, by rw [hS]; rfl⟩

/-- Witness of C2 amended: the request GET /missing. -/
theorem root_pattern_serves_every_path_witness :
    reqMissing.RequestURI ≠ "*" ∧ cleanPath reqMissing.Path = reqMissing.Path
    ∧ HasPrefix reqMissing.Path "/" = true
    ∧ reqMissing.Path ≠ "/"
    ∧ ((run envMissing).proc.DefaultServeMux.ServeHTTP envMissing.lib
        (serverWriter envMissing.detect)
        { proc := Proc.start, r := reqMissing, w := Response.fresh }).w.Code = some 200
    ∧ ((run envMissing).proc.DefaultServeMux.ServeHTTP envMissing.lib
        (serverWriter envMissing.detect)
        { proc := Proc.start, r := reqMissing, w := Response.fresh }).w.Body
        = "Hello from Go API!\n" :=
  ⟨by decide, by decide, by decide, by decide,
   (root_pattern_serves_every_path envMissing Proc.start reqMissing
      (by decide) (by decide) (by decide)).2.2⟩

/-! ## Startup: claims C3, C7, C8 -/

/-- C3, as stated, fails: with the port already in use the process ends with
exit code 0 and nothing on the standard error. -/
theorem bind_failure_exits_zero :
    envBusy.listenErr ":3001" = some "listen tcp :3001: bind: address already in use"
    ∧ (run envBusy).exitCode = some 0
    ∧ (run envBusy).proc.stderr = "" := by
  decide

/-- C3, amended: when the listen call fails to bind the port, main drops the
returned error and returns: the process ends with exit code 0, nothing is
written to the standard error, no address is listened on and no request is
served. -/
theorem bind_failure_is_dropped (env : Env) (err : String)
    (h : env.listenErr ":3001" = some err) :
    (run env).exitCode = some 0
    ∧ (run env).proc.stderr = ""
    ∧ (run env).proc.listening = none
    ∧ (run env).proc.responses = [] := by
  rw [run_eq, h]
  exact ⟨rfl, rfl, rfl, rfl⟩

/-- Witness of C3 amended: every address in use. -/
theorem bind_failure_is_dropped_witness :
    envBusy.listenErr ":3001" = some "listen tcp :3001: bind: address already in use"
    ∧ (run envBusy).exitCode = some 0
    ∧ (run envBusy).proc.stderr = ""
    ∧ (run envBusy).proc.listening = none
    ∧ (run envBusy).proc.responses = [] :=
  ⟨rfl, bind_failure_is_dropped envBusy
    "listen tcp :3001: bind: address already in use" rfl⟩

/-- C7: whatever the environment (bind failure or not, any requests served),
the standard output of the process is exactly the banner line and its
newline, one line, written by the one Println call of main; and handler, on
any writer, leaves the standard output as it was. -/
theorem stdout_is_banner_line (env : Env) :
    (run env).proc.stdout = "🚀 API Server running on http://localhost:3001\n"
    ∧ (run env).proc.stdout.data.count '\n' = 1
    ∧ (run env).proc.calls.filter (fun c => c matches Call.Println _)
        = [Call.Println ["🚀 API Server running on http://localhost:3001"]]
    ∧ ∀ (σ : Type) (W : ResponseWriter σ) (st : Invocation σ),
        (handler W st).proc.stdout = st.proc.stdout := by
  obtain ⟨h1, _, _, h4⟩ := run_frame env
  rw [h1, h4]
  exact ⟨rfl, by decide, by decide, fun _ _ _ => rfl⟩

/-- C8: whatever the environment, the library calls of main are, in order:
Println of the banner, HandleFunc of handler under "/" (which leaves handler
as the one entry of the default multiplexer), ListenAndServe on ":3001" with
the nil handler, that is the default multiplexer; the address names port 3001
and no host, the port in the banner is the same, and while the server runs
the address listened on is ":3001". -/
theorem startup_order (env : Env) :
    (run env).proc.calls
      = [Call.Println ["🚀 API Server running on http://localhost:3001"],
         Call.HandleFunc "/" HandlerFunc.handler,
         Call.ListenAndServe ":3001" none]
    ∧ (run env).proc.DefaultServeMux.m = [("/", { h := HandlerFunc.handler, pattern := "/" })]
    ∧ portOf ":3001" = "3001"
    ∧ hostOf ":3001" = ""
    ∧ portOf "🚀 API Server running on http://localhost:3001" = portOf ":3001"
    ∧ (run env).proc.listening
        = (if (env.listenErr ":3001").isNone && env.serveErr.isNone then some ":3001"
           else none) := by
  obtain ⟨_, _, h3, h4⟩ := run_frame env
  refine ⟨h4, by rw [h3]; rfl, by decide, by decide, by decide, ?_⟩
  rw [run_eq]
  cases hl : env.listenErr ":3001" with
  | some e => rfl
  | none =>
    cases hs : env.serveErr with
    | some e => rfl
    | none =>
      exact (serveAll_frame env env.requests
        { procAtListen with listening := some ":3001" }).2.2.2.1

end Api
